import Mathlib

/-!
Verification of the FinancePy mortgage amortization core
(`financepy/products/bonds/FinBondMortgage.py`).

The amortization engine is embedded shallowly over exact rational
arithmetic: Python floats become `ℚ`, Python lists become `List ℚ`,
instance attributes that are only assigned inside `generateFlows`
become `Option` fields (a `none` field models a missing attribute,
whose access raises `AttributeError`), and raised exceptions become
an explicit `PyError` value.  Because Python's `generateFlows`
mutates `self` before it can raise, the embedding returns the
post-call object state alongside the optional error.

External collaborators that are not part of the source file
(`FinFrequency`, `FinSchedule`, the calendar enumerations) are
modelled from the specification, as noted on each definition.
-/

/-- Modelled from the spec: the frequency enumeration of the external
`FinFrequency` module (spec section 6); each member maps to an integer
number of periods per year. -/
inductive FinFrequencyTypes where
  | ANNUAL
  | SEMI_ANNUAL
  | QUARTERLY
  | MONTHLY
deriving DecidableEq

/-- Modelled from the spec: the external function `FinFrequency` maps a
frequency type to its periods-per-year divisor
(ANNUAL 1, SEMI_ANNUAL 2, QUARTERLY 4, MONTHLY 12, spec section 6). -/
def FinFrequency : FinFrequencyTypes → ℚ
  | .ANNUAL => 1
  | .SEMI_ANNUAL => 2
  | .QUARTERLY => 4
  | .MONTHLY => 12

/-- Modelled from the spec: the calendar enumeration is opaque to the
core (spec section 4.2); representative members only. -/
inductive FinCalendarTypes where
  | WEEKEND
  | TARGET
  | NONE_CAL
deriving DecidableEq

/-- Modelled from the spec: business-day adjustment rule enumeration,
opaque to the core. -/
inductive FinBusDayAdjustTypes where
  | FOLLOWING
  | MODIFIED_FOLLOWING
  | NONE_ADJ
deriving DecidableEq

/-- Modelled from the spec: date-generation rule enumeration, opaque to
the core. -/
inductive FinDateGenRuleTypes where
  | FORWARD
  | BACKWARD
deriving DecidableEq

/-- Modelled from the spec: day-count convention enumeration, opaque to
the core. -/
inductive FinDayCountTypes where
  | ACT_360
  | THIRTY_360
deriving DecidableEq

/-- The mortgage-type enumeration of the source
(`class FinBondMortgageType(Enum)`). -/
inductive FinBondMortgageType where
  | REPAYMENT
  | INTEREST_ONLY
deriving DecidableEq

/-- The dynamic argument domain of the `mortgageType` parameter of
`generateFlows`: Python is untyped there, so a caller may pass either a
member of the enumeration or any other value (`invalid`). -/
inductive MortgageTypeArg where
  | valid (t : FinBondMortgageType)
  | invalid
deriving DecidableEq

/-- Exceptions the embedded code can raise: Python's built-in
`ZeroDivisionError`, the library's `FinError` with the
message used at the unknown-mortgage-type branch, and the
`ValueError` raised by the constructor on a start date after the
end date. -/
inductive PyError where
  | zeroDivisionError
  | finErrorUnknownMortgageType
  | valueErrorStartAfterEnd
deriving DecidableEq

/-- The object state of a `FinBondMortgage` instance.  Configuration
fields are assigned by `__init__`; `_schedule` stands for the adjusted
payment-date list produced by the external `FinSchedule` collaborator
(dates as serial numbers; the core only ever reads its length).  The
five trailing fields are assigned only inside `generateFlows`, hence
`Option`: `none` models an attribute that does not exist yet. -/
structure FinBondMortgage where
  _startDate : ℤ
  _endDate : ℤ
  _principal : ℚ
  _frequencyType : FinFrequencyTypes
  _calendarType : FinCalendarTypes
  _busDayAdjustType : FinBusDayAdjustTypes
  _dateGenRuleType : FinDateGenRuleTypes
  _dayCountConventionType : FinDayCountTypes
  _schedule : List ℤ
  _mortgageType : Option MortgageTypeArg
  _interestFlows : Option (List ℚ)
  _principalFlows : Option (List ℚ)
  _principalRemaining : Option (List ℚ)
  _totalFlows : Option (List ℚ)
deriving DecidableEq

namespace FinBondMortgage

/-- Length of the adjusted payment-date sequence,
`len(self._schedule._adjustedDates)` in the source. -/
def numFlows (m : FinBondMortgage) : ℕ :=
  m._schedule.length

/-- Embedding of `FinBondMortgage.__init__`.  The schedule list is
received from the external `FinSchedule` collaborator (spec section
4.2).  The enum-membership checks of the source are vacuous in a
closed sum-type embedding; the date-ordering check remains. -/
def init (startDate endDate : ℤ) (principal : ℚ)
    (frequencyType : FinFrequencyTypes) (calendarType : FinCalendarTypes)
    (busDayAdjustType : FinBusDayAdjustTypes)
    (dateGenRuleType : FinDateGenRuleTypes)
    (dayCountConventionType : FinDayCountTypes)
    (schedule : List ℤ) : Except PyError FinBondMortgage :=
  if startDate > endDate then
    .error .valueErrorStartAfterEnd
  else
    .ok { _startDate := startDate
          _endDate := endDate
          _principal := principal
          _frequencyType := frequencyType
          _calendarType := calendarType
          _busDayAdjustType := busDayAdjustType
          _dateGenRuleType := dateGenRuleType
          _dayCountConventionType := dayCountConventionType
          _schedule := schedule
          _mortgageType := none
          _interestFlows := none
          _principalFlows := none
          _principalRemaining := none
          _totalFlows := none }

/-- Embedding of `FinBondMortgage.repaymentAmount`.  The source
computes `p = (1 + zeroRate/frequency) ** (numFlows - 1)` (a Python
integer exponent, possibly negative, hence `ℤ`) and then
`m = zeroRate * p / (p - 1.0) / frequency * principal`.  Python raises
`ZeroDivisionError` exactly when `p - 1.0` is zero, modelled by
`none`. -/
def repaymentAmount (m : FinBondMortgage) (zeroRate : ℚ) : Option ℚ :=
  let frequency := FinFrequency m._frequencyType
  let numFlows := m.numFlows
  let p := (1 + zeroRate / frequency) ^ ((numFlows : ℤ) - 1)
  if p - 1 = 0 then
    none
  else
    some (zeroRate * p / (p - 1) / frequency * m._principal)

end FinBondMortgage

/-- The loop-local state of the flow-generation loop in
`generateFlows`: the running `principal` variable and the four growing
flow lists. -/
structure FlowState where
  principal : ℚ
  interestFlows : List ℚ
  principalFlows : List ℚ
  principalRemaining : List ℚ
  totalFlows : List ℚ
deriving DecidableEq

/-- The seed state before the loop: all-zero flows at index 0 and the
full principal outstanding, as assigned at the top of
`generateFlows`. -/
def seedFlows (principal : ℚ) : FlowState :=
  { principal := principal
    interestFlows := [0]
    principalFlows := [0]
    principalRemaining := [principal]
    totalFlows := [0] }

/-- One iteration of the flow-generation loop body of the source. -/
def flowStep (zeroRate frequency monthlyFlow : ℚ) (s : FlowState) :
    FlowState :=
  let interestFlow := s.principal * zeroRate / frequency
  let principalFlow := monthlyFlow - interestFlow
  let principal := s.principal - principalFlow
  { principal := principal
    interestFlows := s.interestFlows ++ [interestFlow]
    principalFlows := s.principalFlows ++ [principalFlow]
    principalRemaining := s.principalRemaining ++ [principal]
    totalFlows := s.totalFlows ++ [monthlyFlow] }

/-- The flow-generation loop iterated `k` times
(`for i in range(1, numFlows)` runs `numFlows - 1` times). -/
def runFlows (zeroRate frequency monthlyFlow : ℚ) (s : FlowState) :
    ℕ → FlowState
  | 0 => s
  | k + 1 => flowStep zeroRate frequency monthlyFlow
      (runFlows zeroRate frequency monthlyFlow s k)

namespace FinBondMortgage

/-- The object state after the opening assignments of `generateFlows`:
`self._mortgageType` is set and the four flow lists hold the all-zero
seed row with the full principal outstanding. -/
def seeded (m : FinBondMortgage) (mortgageType : MortgageTypeArg) :
    FinBondMortgage :=
  { m with
    _mortgageType := some mortgageType
    _interestFlows := some [0]
    _principalFlows := some [0]
    _principalRemaining := some [m._principal]
    _totalFlows := some [0] }

/-- The object state after the flow-generation loop of `generateFlows`
has run to completion with level payment `monthlyFlow`: the loop
appends `numFlows - 1` rows onto the seeded lists. -/
def flowsObject (m : FinBondMortgage) (zeroRate monthlyFlow : ℚ)
    (mortgageType : MortgageTypeArg) : FinBondMortgage :=
  let s := runFlows zeroRate (FinFrequency m._frequencyType) monthlyFlow
    (seedFlows m._principal) (m.numFlows - 1)
  { m.seeded mortgageType with
    _interestFlows := some s.interestFlows
    _principalFlows := some s.principalFlows
    _principalRemaining := some s.principalRemaining
    _totalFlows := some s.totalFlows }

/-- Embedding of `FinBondMortgage.generateFlows`.  The source first
assigns `self._mortgageType` and the four seed lists (`seeded`), then
branches on the mortgage type; an unknown type raises `FinError` and
the `REPAYMENT` branch can raise `ZeroDivisionError` inside
`repaymentAmount` (the call reads only configuration fields, which the
seed assignments do not touch).  Both raises happen after the seed
assignment, so the returned object state carries the partial mutation;
the first component is the raised exception, if any.  On success the
loop runs `numFlows - 1` times (`for i in range(1, numFlows)`) and the
completed lists are stored on the object (`flowsObject`). -/
def generateFlows (m : FinBondMortgage) (zeroRate : ℚ)
    (mortgageType : MortgageTypeArg) : Option PyError × FinBondMortgage :=
  match mortgageType with
  | .valid .REPAYMENT =>
    match m.repaymentAmount zeroRate with
    | none => (some .zeroDivisionError, m.seeded mortgageType)
    | some monthlyFlow =>
      (none, m.flowsObject zeroRate monthlyFlow mortgageType)
  | .valid .INTEREST_ONLY =>
    (none, m.flowsObject zeroRate
      (zeroRate * m._principal / FinFrequency m._frequencyType) mortgageType)
  | .invalid => (some .finErrorUnknownMortgageType, m.seeded mortgageType)

/-- Whether `__repr__` succeeds on the instance: among the attributes
it reads, only `_mortgageType` may be missing. -/
def reprSucceeds (m : FinBondMortgage) : Bool :=
  m._mortgageType.isSome

/-- Whether an optional flow list supports indexed access at every
`i < n`. -/
def listAccessOk (o : Option (List ℚ)) (n : ℕ) : Bool :=
  match o with
  | none => false
  | some l => n ≤ l.length

/-- Whether `printLeg` succeeds on the instance: the header reads
`_mortgageType`, and the row loop indexes all four flow lists at
`0 .. numFlows - 1` (so when `numFlows = 0` the lists are never
touched). -/
def printLegSucceeds (m : FinBondMortgage) : Bool :=
  m._mortgageType.isSome &&
    (m.numFlows == 0 ||
      (listAccessOk m._interestFlows m.numFlows &&
        listAccessOk m._principalFlows m.numFlows &&
        listAccessOk m._principalRemaining m.numFlows &&
        listAccessOk m._totalFlows m.numFlows))

end FinBondMortgage

/-- A sample mortgage object as produced by the constructor, with an
`n`-date schedule, used to instantiate witnesses. -/
def sampleMortgage (n : ℕ) : FinBondMortgage :=
  { _startDate := 0
    _endDate := 3650
    _principal := 300
    _frequencyType := .ANNUAL
    _calendarType := .WEEKEND
    _busDayAdjustType := .FOLLOWING
    _dateGenRuleType := .BACKWARD
    _dayCountConventionType := .ACT_360
    _schedule := List.replicate n 0
    _mortgageType := none
    _interestFlows := none
    _principalFlows := none
    _principalRemaining := none
    _totalFlows := none }

section FlowLemmas

/-- Every frequency divisor of the enumeration is positive. -/
theorem FinFrequency_pos (ft : FinFrequencyTypes) : 0 < FinFrequency ft := by
  cases ft <;> norm_num [FinFrequency]

theorem runFlows_interestFlows_length (z f mf P : ℚ) (k : ℕ) :
    (runFlows z f mf (seedFlows P) k).interestFlows.length = k + 1 := by
  induction k with
  | zero => rfl
  | succ k ih => simp [runFlows, flowStep, ih]

theorem runFlows_principalFlows_length (z f mf P : ℚ) (k : ℕ) :
    (runFlows z f mf (seedFlows P) k).principalFlows.length = k + 1 := by
  induction k with
  | zero => rfl
  | succ k ih => simp [runFlows, flowStep, ih]

theorem runFlows_principalRemaining_length (z f mf P : ℚ) (k : ℕ) :
    (runFlows z f mf (seedFlows P) k).principalRemaining.length = k + 1 := by
  induction k with
  | zero => rfl
  | succ k ih => simp [runFlows, flowStep, ih]

theorem runFlows_totalFlows_length (z f mf P : ℚ) (k : ℕ) :
    (runFlows z f mf (seedFlows P) k).totalFlows.length = k + 1 := by
  induction k with
  | zero => rfl
  | succ k ih => simp [runFlows, flowStep, ih]

/-- The entry of `principalRemaining` at the last filled index equals
the running principal variable. -/
theorem runFlows_principalRemaining_getD (z f mf P : ℚ) (k : ℕ) :
    (runFlows z f mf (seedFlows P) k).principalRemaining.getD k 0 =
      (runFlows z f mf (seedFlows P) k).principal := by
  induction k with
  | zero => rfl
  | succ k ih =>
    have hlen := runFlows_principalRemaining_length z f mf P k
    simp only [runFlows, flowStep]
    rw [List.getD_append_right _ _ _ _ (by rw [hlen])]
    rw [hlen]
    simp

/-- Closed form for the running principal: writing `q` for the
per-period growth factor `1 + z/f`, after `k` loop iterations with
level payment `mf` the identity
`(q - 1) * principal_k = (q - 1) * P * q^k - mf * (q^k - 1)` holds. -/
theorem runFlows_principal_closed (z f mf P q : ℚ) (hq : q = 1 + z / f)
    (k : ℕ) :
    (q - 1) * (runFlows z f mf (seedFlows P) k).principal =
      (q - 1) * P * q ^ k - mf * (q ^ k - 1) := by
  induction k with
  | zero => simp [runFlows, seedFlows]
  | succ k ih =>
    have hzf : z / f = q - 1 := by rw [hq]; ring
    simp only [runFlows, flowStep]
    rw [mul_div_assoc, hzf]
    ring_nf
    ring_nf at ih
    linear_combination q * ih

end FlowLemmas

/-- Appending one element and reading at the old length returns that
element. -/
theorem getD_append_length (l : List ℚ) (a : ℚ) (n : ℕ)
    (h : l.length = n) : (l ++ [a]).getD n 0 = a := by
  subst h
  rw [List.getD_append_right _ _ _ _ (Nat.le_refl _)]
  simp

/-- Row relations of the repayment loop: at every filled index
`1 ≤ i ≤ k`, the total flow is the sum of the interest and principal
flows, and the remaining principal drops by the principal flow. -/
theorem runFlows_row_relations (z f mf P : ℚ) (k i : ℕ) (hi1 : 1 ≤ i)
    (hik : i ≤ k) :
    (runFlows z f mf (seedFlows P) k).totalFlows.getD i 0 =
      (runFlows z f mf (seedFlows P) k).interestFlows.getD i 0 +
        (runFlows z f mf (seedFlows P) k).principalFlows.getD i 0 ∧
    (runFlows z f mf (seedFlows P) k).principalRemaining.getD i 0 =
      (runFlows z f mf (seedFlows P) k).principalRemaining.getD (i - 1) 0 -
        (runFlows z f mf (seedFlows P) k).principalFlows.getD i 0 := by
  induction k with
  | zero => omega
  | succ k ih =>
    rcases eq_or_lt_of_le hik with he | hlt
    · have hT := getD_append_length (runFlows z f mf (seedFlows P) k).totalFlows
        mf (k + 1) (runFlows_totalFlows_length z f mf P k)
      have hI := getD_append_length (runFlows z f mf (seedFlows P) k).interestFlows
        ((runFlows z f mf (seedFlows P) k).principal * z / f) (k + 1)
        (runFlows_interestFlows_length z f mf P k)
      have hPF := getD_append_length (runFlows z f mf (seedFlows P) k).principalFlows
        (mf - (runFlows z f mf (seedFlows P) k).principal * z / f) (k + 1)
        (runFlows_principalFlows_length z f mf P k)
      have hPR := getD_append_length
        (runFlows z f mf (seedFlows P) k).principalRemaining
        ((runFlows z f mf (seedFlows P) k).principal -
          (mf - (runFlows z f mf (seedFlows P) k).principal * z / f)) (k + 1)
        (runFlows_principalRemaining_length z f mf P k)
      subst he
      constructor
      · simp only [runFlows, flowStep]
        rw [hT, hI, hPF]
        ring
      · simp only [runFlows, flowStep]
        rw [hPR, hPF]
        have : k + 1 - 1 = k := rfl
        rw [this, List.getD_append _ _ _ _
          (by rw [runFlows_principalRemaining_length]; omega)]
        rw [runFlows_principalRemaining_getD]
    · have hik' : i ≤ k := Nat.lt_succ_iff.mp hlt
      obtain ⟨ih1, ih2⟩ := ih hik'
      constructor
      · simp only [runFlows, flowStep]
        rw [List.getD_append _ _ _ _
            (by rw [runFlows_totalFlows_length]; omega),
          List.getD_append _ _ _ _
            (by rw [runFlows_interestFlows_length]; omega),
          List.getD_append _ _ _ _
            (by rw [runFlows_principalFlows_length]; omega)]
        exact ih1
      · simp only [runFlows, flowStep]
        rw [List.getD_append _ _ _ _
            (by rw [runFlows_principalRemaining_length]; omega),
          List.getD_append _ _ _ _
            (by rw [runFlows_principalRemaining_length]; omega),
          List.getD_append _ _ _ _
            (by rw [runFlows_principalFlows_length]; omega)]
        exact ih2

/-- The interest-only loop leaves the running principal at `P` and
fills every row with interest `P * z / f`, zero principal flow,
remaining principal `P` and total flow equal to the level payment. -/
theorem runFlows_interest_only (z f P mf : ℚ) (hmf : mf = z * P / f)
    (k : ℕ) :
    (runFlows z f mf (seedFlows P) k).principal = P ∧
    ∀ i, 1 ≤ i → i ≤ k →
      (runFlows z f mf (seedFlows P) k).interestFlows.getD i 0 = P * z / f ∧
      (runFlows z f mf (seedFlows P) k).principalFlows.getD i 0 = 0 ∧
      (runFlows z f mf (seedFlows P) k).principalRemaining.getD i 0 = P ∧
      (runFlows z f mf (seedFlows P) k).totalFlows.getD i 0 = mf := by
  induction k with
  | zero => exact ⟨rfl, by omega⟩
  | succ k ih =>
    obtain ⟨ihP, ihRows⟩ := ih
    refine ⟨?_, ?_⟩
    · simp only [runFlows, flowStep]
      rw [ihP, hmf]
      ring
    · intro i hi1 hik
      rcases eq_or_lt_of_le hik with he | hlt
      · have hI := getD_append_length
          (runFlows z f mf (seedFlows P) k).interestFlows
          ((runFlows z f mf (seedFlows P) k).principal * z / f) (k + 1)
          (runFlows_interestFlows_length z f mf P k)
        have hPF := getD_append_length
          (runFlows z f mf (seedFlows P) k).principalFlows
          (mf - (runFlows z f mf (seedFlows P) k).principal * z / f) (k + 1)
          (runFlows_principalFlows_length z f mf P k)
        have hPR := getD_append_length
          (runFlows z f mf (seedFlows P) k).principalRemaining
          ((runFlows z f mf (seedFlows P) k).principal -
            (mf - (runFlows z f mf (seedFlows P) k).principal * z / f)) (k + 1)
          (runFlows_principalRemaining_length z f mf P k)
        have hT := getD_append_length
          (runFlows z f mf (seedFlows P) k).totalFlows mf (k + 1)
          (runFlows_totalFlows_length z f mf P k)
        subst he
        refine ⟨?_, ?_, ?_, ?_⟩
        · simp only [runFlows, flowStep]
          rw [hI, ihP]
        · simp only [runFlows, flowStep]
          rw [hPF, ihP, hmf]
          ring
        · simp only [runFlows, flowStep]
          rw [hPR, ihP, hmf]
          ring
        · simp only [runFlows, flowStep]
          rw [hT]
      · have hik' : i ≤ k := Nat.lt_succ_iff.mp hlt
        obtain ⟨ha, hb, hc, hd⟩ := ihRows i hi1 hik'
        refine ⟨?_, ?_, ?_, ?_⟩
        · simp only [runFlows, flowStep]
          rw [List.getD_append _ _ _ _
            (by rw [runFlows_interestFlows_length]; omega)]
          exact ha
        · simp only [runFlows, flowStep]
          rw [List.getD_append _ _ _ _
            (by rw [runFlows_principalFlows_length]; omega)]
          exact hb
        · simp only [runFlows, flowStep]
          rw [List.getD_append _ _ _ _
            (by rw [runFlows_principalRemaining_length]; omega)]
          exact hc
        · simp only [runFlows, flowStep]
          rw [List.getD_append _ _ _ _
            (by rw [runFlows_totalFlows_length]; omega)]
          exact hd

/-- Index 0 of every generated list keeps its seed value. -/
theorem runFlows_getD_zero (z f mf P : ℚ) (k : ℕ) :
    (runFlows z f mf (seedFlows P) k).interestFlows.getD 0 0 = 0 ∧
    (runFlows z f mf (seedFlows P) k).principalFlows.getD 0 0 = 0 ∧
    (runFlows z f mf (seedFlows P) k).principalRemaining.getD 0 0 = P ∧
    (runFlows z f mf (seedFlows P) k).totalFlows.getD 0 0 = 0 := by
  induction k with
  | zero => simp [runFlows, seedFlows]
  | succ k ih =>
    obtain ⟨ha, hb, hc, hd⟩ := ih
    refine ⟨?_, ?_, ?_, ?_⟩
    · simp only [runFlows, flowStep]
      rw [List.getD_append _ _ _ _
        (by rw [runFlows_interestFlows_length]; omega)]
      exact ha
    · simp only [runFlows, flowStep]
      rw [List.getD_append _ _ _ _
        (by rw [runFlows_principalFlows_length]; omega)]
      exact hb
    · simp only [runFlows, flowStep]
      rw [List.getD_append _ _ _ _
        (by rw [runFlows_principalRemaining_length]; omega)]
      exact hc
    · simp only [runFlows, flowStep]
      rw [List.getD_append _ _ _ _
        (by rw [runFlows_totalFlows_length]; omega)]
      exact hd

namespace FinBondMortgage

theorem generateFlows_invalid_eq (m : FinBondMortgage) (z : ℚ) :
    m.generateFlows z .invalid =
      (some .finErrorUnknownMortgageType, m.seeded .invalid) := rfl

theorem generateFlows_interestOnly_eq (m : FinBondMortgage) (z : ℚ) :
    m.generateFlows z (.valid .INTEREST_ONLY) =
      (none, m.flowsObject z (z * m._principal / FinFrequency m._frequencyType)
        (.valid .INTEREST_ONLY)) := rfl

theorem generateFlows_repayment_none (m : FinBondMortgage) (z : ℚ)
    (h : m.repaymentAmount z = none) :
    m.generateFlows z (.valid .REPAYMENT) =
      (some .zeroDivisionError, m.seeded (.valid .REPAYMENT)) := by
  simp [generateFlows, h]

theorem generateFlows_repayment_some (m : FinBondMortgage) (z mf : ℚ)
    (h : m.repaymentAmount z = some mf) :
    m.generateFlows z (.valid .REPAYMENT) =
      (none, m.flowsObject z mf (.valid .REPAYMENT)) := by
  simp [generateFlows, h]

end FinBondMortgage

/-- Claim C9: `generateFlows` never mutates the loan configuration: for
every mortgage, rate and mortgage-type argument, the start date, end
date, principal, frequency, calendar, business-day-adjust rule,
date-generation rule, day-count convention and the generated payment
schedule of the post-call object state equal those of the object before
the call. -/
theorem C9_generateFlows_preserves_config (m : FinBondMortgage) (z : ℚ)
    (mt : MortgageTypeArg) :
    ((m.generateFlows z mt).2)._startDate = m._startDate ∧
    ((m.generateFlows z mt).2)._endDate = m._endDate ∧
    ((m.generateFlows z mt).2)._principal = m._principal ∧
    ((m.generateFlows z mt).2)._frequencyType = m._frequencyType ∧
    ((m.generateFlows z mt).2)._calendarType = m._calendarType ∧
    ((m.generateFlows z mt).2)._busDayAdjustType = m._busDayAdjustType ∧
    ((m.generateFlows z mt).2)._dateGenRuleType = m._dateGenRuleType ∧
    ((m.generateFlows z mt).2)._dayCountConventionType =
      m._dayCountConventionType ∧
    ((m.generateFlows z mt).2)._schedule = m._schedule := by
  match mt with
  | .invalid =>
    simp [FinBondMortgage.generateFlows, FinBondMortgage.seeded]
  | .valid .INTEREST_ONLY =>
    simp [FinBondMortgage.generateFlows, FinBondMortgage.flowsObject,
      FinBondMortgage.seeded]
  | .valid .REPAYMENT =>
    cases h : m.repaymentAmount z with
    | none =>
      simp [FinBondMortgage.generateFlows, h, FinBondMortgage.seeded]
    | some mf =>
      simp [FinBondMortgage.generateFlows, h, FinBondMortgage.flowsObject,
        FinBondMortgage.seeded]

/-- Claim C4 fails on the code: calling `generateFlows` with a
mortgage-type value outside the enumeration does raise the
unknown-mortgage-type `FinError`, but the call does not leave the
object state as it was: at this concrete input the post-call state
differs from the pre-call state (the `_mortgageType` attribute has been
assigned). -/
theorem C4_counterexample :
    ((sampleMortgage 13).generateFlows (1/20) MortgageTypeArg.invalid).1 =
      some PyError.finErrorUnknownMortgageType ∧
    ((sampleMortgage 13).generateFlows (1/20) MortgageTypeArg.invalid).2 ≠
      sampleMortgage 13 := by
  refine ⟨rfl, ?_⟩
  intro h
  have h2 := congrArg FinBondMortgage._mortgageType h
  simp [sampleMortgage, FinBondMortgage.generateFlows,
    FinBondMortgage.seeded] at h2

/-- Claim C4 amended: for every mortgage and rate, `generateFlows` with
a mortgage-type value outside {REPAYMENT, INTEREST_ONLY} raises the
unknown-mortgage-type `FinError` and appends no flow rows, but it first
mutates the observable state: `_mortgageType` is assigned the offending
value and the four flow lists are reset to the length-1 seed row
(`seeded`), and this partial state remains after the raise. -/
theorem C4_invalid_type_raises_after_seeding (m : FinBondMortgage) (z : ℚ) :
    m.generateFlows z .invalid =
      (some .finErrorUnknownMortgageType, m.seeded .invalid) ∧
    (m.seeded .invalid)._mortgageType = some .invalid ∧
    (m.seeded .invalid)._interestFlows = some [0] ∧
    (m.seeded .invalid)._principalFlows = some [0] ∧
    (m.seeded .invalid)._principalRemaining = some [m._principal] ∧
    (m.seeded .invalid)._totalFlows = some [0] := by
  exact ⟨rfl, rfl, rfl, rfl, rfl, rfl⟩

/-- Claim C5 fails on the code: with a one-date payment schedule
(`numPeriods = 1`), `generateFlows` for INTEREST_ONLY raises nothing
and returns a length-1 flow vector (just the seeded zero row), instead
of raising an invalid-argument error and producing no flow vector. -/
theorem C5_counterexample :
    ((sampleMortgage 1).generateFlows (1/20) (.valid .INTEREST_ONLY)).1 =
      none ∧
    ((sampleMortgage 1).generateFlows (1/20)
      (.valid .INTEREST_ONLY)).2._totalFlows = some [0] ∧
    ((sampleMortgage 1).generateFlows (1/20)
      (.valid .INTEREST_ONLY)).2._principalRemaining = some [300] := by
  exact ⟨rfl, rfl, rfl⟩

/-- Claim C5 amended: `generateFlows` performs no validation of the
number of periods.  With `numPeriods = 1` the loop body never runs:
INTEREST_ONLY succeeds with no error and a length-1 flow vector (the
seed row only), while REPAYMENT fails — but with a
division-by-zero error inside `repaymentAmount` (since
`p = (1+z/f)^0 = 1`), not an invalid-argument error. -/
theorem C5_numPeriods_one_behavior (m : FinBondMortgage) (z : ℚ)
    (hn : m.numFlows = 1) :
    (m.generateFlows z (.valid .INTEREST_ONLY)).1 = none ∧
    (((m.generateFlows z (.valid .INTEREST_ONLY)).2)._totalFlows.getD
      []).length = 1 ∧
    (m.generateFlows z (.valid .REPAYMENT)).1 =
      some PyError.zeroDivisionError := by
  have hra : m.repaymentAmount z = none := by
    simp only [FinBondMortgage.repaymentAmount]
    rw [hn]
    norm_num
  refine ⟨rfl, ?_, ?_⟩
  · rw [FinBondMortgage.generateFlows_interestOnly_eq]
    simp only [FinBondMortgage.flowsObject, FinBondMortgage.seeded]
    rw [hn]
    rfl
  · rw [FinBondMortgage.generateFlows_repayment_none m z hra]

/-- Claim C3 names a behavior the code does not implement: the source
has no special case for `zeroRate = 0`.  There `p = 1`, the divisor
`p - 1` is zero, and `repaymentAmount` raises `ZeroDivisionError`
instead of returning `principal / (numPeriods - 1)`; `generateFlows`
for REPAYMENT propagates that error after the seed assignment, so no
flow rows are produced at all. -/
theorem C3_zero_rate_division_fault :
    (sampleMortgage 13).repaymentAmount 0 = none ∧
    ((sampleMortgage 13).generateFlows 0 (.valid .REPAYMENT)).1 =
      some PyError.zeroDivisionError ∧
    ((sampleMortgage 13).generateFlows 0
      (.valid .REPAYMENT)).2._totalFlows = some [0] := by
  have h : (sampleMortgage 13).repaymentAmount 0 = none := by
    norm_num [FinBondMortgage.repaymentAmount, sampleMortgage,
      FinBondMortgage.numFlows, FinFrequency]
  refine ⟨h, ?_, ?_⟩
  · rw [FinBondMortgage.generateFlows_repayment_none _ _ h]
  · rw [FinBondMortgage.generateFlows_repayment_none _ _ h]
    rfl

/-- Claim C1: for a mortgage with positive frequency divisor, at least
two payment dates and a rate whose growth factor power `p` differs from
1, `repaymentAmount` returns exactly
`principal * zeroRate * p / (frequency * (p - 1))` with
`p = (1 + zeroRate/frequency) ^ (numPeriods - 1)`. -/
theorem C1_repayment_closed_form (m : FinBondMortgage) (z : ℚ)
    (hf : 0 < FinFrequency m._frequencyType) (hn : 2 ≤ m.numFlows)
    (hp : (1 + z / FinFrequency m._frequencyType) ^ (m.numFlows - 1) ≠ 1) :
    m.repaymentAmount z =
      some (m._principal * z *
        (1 + z / FinFrequency m._frequencyType) ^ (m.numFlows - 1) /
        (FinFrequency m._frequencyType *
          ((1 + z / FinFrequency m._frequencyType) ^ (m.numFlows - 1) - 1))) := by
  have hcast : ((m.numFlows : ℤ) - 1) = ((m.numFlows - 1 : ℕ) : ℤ) := by
    omega
  have hp1 :
      (1 + z / FinFrequency m._frequencyType) ^ (m.numFlows - 1) - 1 ≠ 0 :=
    sub_ne_zero.mpr hp
  have hf0 : FinFrequency m._frequencyType ≠ 0 := ne_of_gt hf
  simp only [FinBondMortgage.repaymentAmount]
  rw [hcast, zpow_natCast, if_neg hp1]
  congr 1
  field_simp
  ring

/-- The closed-form level payment exactly clears the geometric
recurrence: the right-hand side of `runFlows_principal_closed`
vanishes when the payment is the one `repaymentAmount` computes. -/
theorem payment_clears (z f P p : ℚ) (hf0 : f ≠ 0) (hp1 : p - 1 ≠ 0) :
    ((1 + z / f) - 1) * P * p - (z * p / (p - 1) / f * P) * (p - 1) = 0 := by
  field_simp
  ring

/-- With a positive rate and at least two payment dates the power `p`
exceeds 1, so `repaymentAmount` succeeds and returns the source's
expression verbatim (with the integer exponent rewritten as the
natural number `numFlows - 1`). -/
theorem repaymentAmount_eq_of (m : FinBondMortgage) (z : ℚ) (hz : 0 < z)
    (hn : 2 ≤ m.numFlows) :
    m.repaymentAmount z =
      some (z * (1 + z / FinFrequency m._frequencyType) ^ (m.numFlows - 1) /
        ((1 + z / FinFrequency m._frequencyType) ^ (m.numFlows - 1) - 1) /
        FinFrequency m._frequencyType * m._principal) := by
  have hf : 0 < FinFrequency m._frequencyType := FinFrequency_pos _
  have hq : 1 < 1 + z / FinFrequency m._frequencyType := by
    have := div_pos hz hf
    linarith
  have hp : 1 < (1 + z / FinFrequency m._frequencyType) ^ (m.numFlows - 1) :=
    one_lt_pow₀ hq (by omega)
  have hp1 :
      (1 + z / FinFrequency m._frequencyType) ^ (m.numFlows - 1) - 1 ≠ 0 :=
    sub_ne_zero.mpr (ne_of_gt hp)
  have hcast : ((m.numFlows : ℤ) - 1) = ((m.numFlows - 1 : ℕ) : ℤ) := by
    omega
  simp only [FinBondMortgage.repaymentAmount]
  rw [hcast, zpow_natCast, if_neg hp1]

/-- Claim C2: for every mortgage with a positive rate and a valid
schedule (at least two payment dates), the REPAYMENT call to
`generateFlows` raises nothing, the `principalRemaining` list has one
entry per payment date, and its final entry — the outstanding
principal after the last period — is exactly zero over exact rational
arithmetic. -/
theorem C2_repayment_fully_amortizes (m : FinBondMortgage) (z : ℚ)
    (hz : 0 < z) (hn : 2 ≤ m.numFlows) :
    (m.generateFlows z (.valid .REPAYMENT)).1 = none ∧
    (((m.generateFlows z
      (.valid .REPAYMENT)).2)._principalRemaining.getD []).length =
      m.numFlows ∧
    (((m.generateFlows z
      (.valid .REPAYMENT)).2)._principalRemaining.getD []).getD
      (m.numFlows - 1) 0 = 0 := by
  have hf : 0 < FinFrequency m._frequencyType := FinFrequency_pos _
  have hf0 : FinFrequency m._frequencyType ≠ 0 := ne_of_gt hf
  have hq : 1 < 1 + z / FinFrequency m._frequencyType := by
    have := div_pos hz hf
    linarith
  have hqm1 : (1 + z / FinFrequency m._frequencyType) - 1 ≠ 0 :=
    sub_ne_zero.mpr (ne_of_gt hq)
  have hp : 1 < (1 + z / FinFrequency m._frequencyType) ^ (m.numFlows - 1) :=
    one_lt_pow₀ hq (by omega)
  have hp1 :
      (1 + z / FinFrequency m._frequencyType) ^ (m.numFlows - 1) - 1 ≠ 0 :=
    sub_ne_zero.mpr (ne_of_gt hp)
  have hra := repaymentAmount_eq_of m z hz hn
  rw [FinBondMortgage.generateFlows_repayment_some m z _ hra]
  refine ⟨rfl, ?_, ?_⟩
  · simp only [FinBondMortgage.flowsObject, FinBondMortgage.seeded,
      Option.getD_some]
    rw [runFlows_principalRemaining_length]
    omega
  · simp only [FinBondMortgage.flowsObject, FinBondMortgage.seeded,
      Option.getD_some]
    rw [runFlows_principalRemaining_getD]
    have hclosed := runFlows_principal_closed z (FinFrequency m._frequencyType)
      (z * (1 + z / FinFrequency m._frequencyType) ^ (m.numFlows - 1) /
        ((1 + z / FinFrequency m._frequencyType) ^ (m.numFlows - 1) - 1) /
        FinFrequency m._frequencyType * m._principal)
      m._principal (1 + z / FinFrequency m._frequencyType) rfl (m.numFlows - 1)
    have hrhs := payment_clears z (FinFrequency m._frequencyType) m._principal
      ((1 + z / FinFrequency m._frequencyType) ^ (m.numFlows - 1)) hf0 hp1
    rw [hrhs] at hclosed
    rcases mul_eq_zero.mp hclosed with h | h
    · exact absurd h hqm1
    · exact h

/-- Claim C6: in the REPAYMENT flows, at every generated row index
`i ≥ 1` the total flow equals interest flow plus principal flow
exactly, and the remaining principal equals the previous remaining
principal minus the principal flow. -/
theorem C6_repayment_row_identities (m : FinBondMortgage) (z : ℚ) (i : ℕ)
    (hi : 1 ≤ i)
    (hlen : i <
      (((m.generateFlows z (.valid .REPAYMENT)).2)._totalFlows.getD
        []).length) :
    (((m.generateFlows z (.valid .REPAYMENT)).2)._totalFlows.getD
        []).getD i 0 =
      (((m.generateFlows z (.valid .REPAYMENT)).2)._interestFlows.getD
        []).getD i 0 +
      (((m.generateFlows z (.valid .REPAYMENT)).2)._principalFlows.getD
        []).getD i 0 ∧
    (((m.generateFlows z (.valid .REPAYMENT)).2)._principalRemaining.getD
        []).getD i 0 =
      (((m.generateFlows z (.valid .REPAYMENT)).2)._principalRemaining.getD
        []).getD (i - 1) 0 -
      (((m.generateFlows z (.valid .REPAYMENT)).2)._principalFlows.getD
        []).getD i 0 := by
  cases hra : m.repaymentAmount z with
  | none =>
    rw [FinBondMortgage.generateFlows_repayment_none m z hra] at hlen
    simp [FinBondMortgage.seeded] at hlen
    omega
  | some mf =>
    rw [FinBondMortgage.generateFlows_repayment_some m z mf hra] at hlen ⊢
    simp only [FinBondMortgage.flowsObject, FinBondMortgage.seeded,
      Option.getD_some] at hlen ⊢
    rw [runFlows_totalFlows_length] at hlen
    exact runFlows_row_relations z (FinFrequency m._frequencyType) mf
      m._principal (m.numFlows - 1) i hi (by omega)

/-- Claim C7: the INTEREST_ONLY call never raises, its level payment is
`zeroRate * principal / frequency`, and at every generated row index
`i ≥ 1` the total flow equals the interest flow, the principal flow is
zero, and the remaining principal stays at the full principal. -/
theorem C7_interest_only_rows (m : FinBondMortgage) (z : ℚ) :
    (m.generateFlows z (.valid .INTEREST_ONLY)).1 = none ∧
    ∀ i, 1 ≤ i →
      i < (((m.generateFlows z
        (.valid .INTEREST_ONLY)).2)._totalFlows.getD []).length →
      (((m.generateFlows z (.valid .INTEREST_ONLY)).2)._totalFlows.getD
          []).getD i 0 =
        z * m._principal / FinFrequency m._frequencyType ∧
      (((m.generateFlows z (.valid .INTEREST_ONLY)).2)._totalFlows.getD
          []).getD i 0 =
        (((m.generateFlows z (.valid .INTEREST_ONLY)).2)._interestFlows.getD
          []).getD i 0 ∧
      (((m.generateFlows z (.valid .INTEREST_ONLY)).2)._principalFlows.getD
          []).getD i 0 = 0 ∧
      (((m.generateFlows z
          (.valid .INTEREST_ONLY)).2)._principalRemaining.getD
          []).getD i 0 = m._principal := by
  refine ⟨rfl, ?_⟩
  intro i hi hlen
  rw [FinBondMortgage.generateFlows_interestOnly_eq] at hlen ⊢
  simp only [FinBondMortgage.flowsObject, FinBondMortgage.seeded,
    Option.getD_some] at hlen ⊢
  rw [runFlows_totalFlows_length] at hlen
  obtain ⟨hP, hrows⟩ := runFlows_interest_only z
    (FinFrequency m._frequencyType) m._principal
    (z * m._principal / FinFrequency m._frequencyType) rfl (m.numFlows - 1)
  obtain ⟨ha, hb, hc, hd⟩ := hrows i hi (by omega)
  refine ⟨hd, ?_, hb, hc⟩
  rw [hd, ha]
  ring

/-- Claim C8: whenever `generateFlows` completes without raising (on a
schedule with at least one date, per the data-model invariant), all
four flow lists have length `numPeriods` and index 0 holds the zero
placeholder row with the full principal remaining. -/
theorem C8_flow_vector_shape (m : FinBondMortgage) (z : ℚ)
    (mt : MortgageTypeArg) (hn : 1 ≤ m.numFlows)
    (h : (m.generateFlows z mt).1 = none) :
    (((m.generateFlows z mt).2)._interestFlows.getD []).length =
      m.numFlows ∧
    (((m.generateFlows z mt).2)._principalFlows.getD []).length =
      m.numFlows ∧
    (((m.generateFlows z mt).2)._principalRemaining.getD []).length =
      m.numFlows ∧
    (((m.generateFlows z mt).2)._totalFlows.getD []).length =
      m.numFlows ∧
    (((m.generateFlows z mt).2)._interestFlows.getD []).getD 0 0 = 0 ∧
    (((m.generateFlows z mt).2)._principalFlows.getD []).getD 0 0 = 0 ∧
    (((m.generateFlows z mt).2)._totalFlows.getD []).getD 0 0 = 0 ∧
    (((m.generateFlows z mt).2)._principalRemaining.getD []).getD 0 0 =
      m._principal := by
  match mt with
  | .invalid =>
    rw [FinBondMortgage.generateFlows_invalid_eq] at h
    exact absurd h (by simp)
  | .valid .INTEREST_ONLY =>
    rw [FinBondMortgage.generateFlows_interestOnly_eq]
    simp only [FinBondMortgage.flowsObject, FinBondMortgage.seeded,
      Option.getD_some]
    obtain ⟨ha, hb, hc, hd⟩ := runFlows_getD_zero z
      (FinFrequency m._frequencyType)
      (z * m._principal / FinFrequency m._frequencyType) m._principal
      (m.numFlows - 1)
    refine ⟨?_, ?_, ?_, ?_, ha, hb, hd, hc⟩
    · rw [runFlows_interestFlows_length]; omega
    · rw [runFlows_principalFlows_length]; omega
    · rw [runFlows_principalRemaining_length]; omega
    · rw [runFlows_totalFlows_length]; omega
  | .valid .REPAYMENT =>
    cases hra : m.repaymentAmount z with
    | none =>
      rw [FinBondMortgage.generateFlows_repayment_none m z hra] at h
      exact absurd h (by simp)
    | some mf =>
      rw [FinBondMortgage.generateFlows_repayment_some m z mf hra]
      simp only [FinBondMortgage.flowsObject, FinBondMortgage.seeded,
        Option.getD_some]
      obtain ⟨ha, hb, hc, hd⟩ := runFlows_getD_zero z
        (FinFrequency m._frequencyType) mf m._principal (m.numFlows - 1)
      refine ⟨?_, ?_, ?_, ?_, ha, hb, hd, hc⟩
      · rw [runFlows_interestFlows_length]; omega
      · rw [runFlows_principalFlows_length]; omega
      · rw [runFlows_principalRemaining_length]; omega
      · rw [runFlows_totalFlows_length]; omega

theorem numFlows_flowsObject (m : FinBondMortgage) (z mf : ℚ)
    (mt : MortgageTypeArg) :
    (m.flowsObject z mf mt).numFlows = m.numFlows := rfl

theorem reprSucceeds_flowsObject (m : FinBondMortgage) (z mf : ℚ)
    (mt : MortgageTypeArg) :
    (m.flowsObject z mf mt).reprSucceeds = true := rfl

/-- After a completed `generateFlows`, `printLeg` finds all the
attributes it reads and every row index is in range. -/
theorem printLegSucceeds_flowsObject (m : FinBondMortgage) (z mf : ℚ)
    (mt : MortgageTypeArg) :
    (m.flowsObject z mf mt).printLegSucceeds = true := by
  have h1 := runFlows_interestFlows_length z (FinFrequency m._frequencyType)
    mf m._principal (m.numFlows - 1)
  have h2 := runFlows_principalFlows_length z (FinFrequency m._frequencyType)
    mf m._principal (m.numFlows - 1)
  have h3 := runFlows_principalRemaining_length z
    (FinFrequency m._frequencyType) mf m._principal (m.numFlows - 1)
  have h4 := runFlows_totalFlows_length z (FinFrequency m._frequencyType)
    mf m._principal (m.numFlows - 1)
  simp only [FinBondMortgage.printLegSucceeds, numFlows_flowsObject]
  simp only [FinBondMortgage.flowsObject, FinBondMortgage.seeded,
    FinBondMortgage.listAccessOk]
  by_cases hn : m.numFlows = 0
  · simp [hn]
  · simp [h1, h2, h3, h4, hn, Nat.succ_le_iff]
    omega

/-- Claim C10: on a freshly constructed mortgage object `__repr__` and
`printLeg` fail (the `_mortgageType` attribute and the flow lists are
assigned only inside `generateFlows`), and after any `generateFlows`
call that completes without raising both reporting operations
succeed. -/
theorem C10_reporting_requires_generateFlows :
    (∀ (sd ed : ℤ) (P : ℚ) (ft : FinFrequencyTypes)
      (ct : FinCalendarTypes) (bt : FinBusDayAdjustTypes)
      (dt : FinDateGenRuleTypes) (dc : FinDayCountTypes) (sch : List ℤ)
      (m0 : FinBondMortgage),
      FinBondMortgage.init sd ed P ft ct bt dt dc sch = .ok m0 →
      m0.reprSucceeds = false ∧ m0.printLegSucceeds = false) ∧
    (∀ (m : FinBondMortgage) (z : ℚ) (mt : MortgageTypeArg),
      (m.generateFlows z mt).1 = none →
      ((m.generateFlows z mt).2).reprSucceeds = true ∧
      ((m.generateFlows z mt).2).printLegSucceeds = true) := by
  constructor
  · intro sd ed P ft ct bt dt dc sch m0 h
    rw [FinBondMortgage.init] at h
    split at h
    · exact absurd h (by simp)
    · injection h with h2
      subst h2
      exact ⟨rfl, rfl⟩
  · intro m z mt h
    match mt with
    | .invalid =>
      rw [FinBondMortgage.generateFlows_invalid_eq] at h
      exact absurd h (by simp)
    | .valid .INTEREST_ONLY =>
      rw [FinBondMortgage.generateFlows_interestOnly_eq]
      exact ⟨reprSucceeds_flowsObject _ _ _ _,
        printLegSucceeds_flowsObject _ _ _ _⟩
    | .valid .REPAYMENT =>
      cases hra : m.repaymentAmount z with
      | none =>
        rw [FinBondMortgage.generateFlows_repayment_none m z hra] at h
        exact absurd h (by simp)
      | some mf =>
        rw [FinBondMortgage.generateFlows_repayment_some m z mf hra]
        exact ⟨reprSucceeds_flowsObject _ _ _ _,
          printLegSucceeds_flowsObject _ _ _ _⟩

/-- Witness for C1 at the concrete annual-frequency three-date
mortgage with rate 1. -/
theorem C1_witness :
    0 < FinFrequency (sampleMortgage 3)._frequencyType ∧
    2 ≤ (sampleMortgage 3).numFlows ∧
    (1 + 1 / FinFrequency (sampleMortgage 3)._frequencyType) ^
      ((sampleMortgage 3).numFlows - 1) ≠ 1 ∧
    (sampleMortgage 3).repaymentAmount 1 =
      some ((sampleMortgage 3)._principal * 1 *
        (1 + 1 / FinFrequency (sampleMortgage 3)._frequencyType) ^
          ((sampleMortgage 3).numFlows - 1) /
        (FinFrequency (sampleMortgage 3)._frequencyType *
          ((1 + 1 / FinFrequency (sampleMortgage 3)._frequencyType) ^
            ((sampleMortgage 3).numFlows - 1) - 1))) :=
  ⟨by norm_num [sampleMortgage, FinFrequency],
   by decide,
   by norm_num [sampleMortgage, FinFrequency, FinBondMortgage.numFlows],
   C1_repayment_closed_form (sampleMortgage 3) 1
     (by norm_num [sampleMortgage, FinFrequency])
     (by decide)
     (by norm_num [sampleMortgage, FinFrequency, FinBondMortgage.numFlows])⟩

/-- Witness for C2 at the concrete annual-frequency three-date
mortgage with rate 1. -/
theorem C2_witness :
    0 < (1 : ℚ) ∧
    2 ≤ (sampleMortgage 3).numFlows ∧
    (((sampleMortgage 3).generateFlows 1 (.valid .REPAYMENT)).1 = none ∧
    ((((sampleMortgage 3).generateFlows 1
      (.valid .REPAYMENT)).2)._principalRemaining.getD []).length =
      (sampleMortgage 3).numFlows ∧
    ((((sampleMortgage 3).generateFlows 1
      (.valid .REPAYMENT)).2)._principalRemaining.getD []).getD
      ((sampleMortgage 3).numFlows - 1) 0 = 0) :=
  ⟨by norm_num, by decide,
   C2_repayment_fully_amortizes (sampleMortgage 3) 1 (by norm_num)
     (by decide)⟩

/-- Witness for C5 at the concrete one-date mortgage. -/
theorem C5_witness :
    (sampleMortgage 1).numFlows = 1 ∧
    (((sampleMortgage 1).generateFlows (1/20)
      (.valid .INTEREST_ONLY)).1 = none ∧
    ((((sampleMortgage 1).generateFlows (1/20)
      (.valid .INTEREST_ONLY)).2)._totalFlows.getD []).length = 1 ∧
    ((sampleMortgage 1).generateFlows (1/20) (.valid .REPAYMENT)).1 =
      some PyError.zeroDivisionError) :=
  ⟨by decide,
   C5_numPeriods_one_behavior (sampleMortgage 1) (1/20) (by decide)⟩

/-- Witness for C6 at the concrete annual-frequency three-date
mortgage with rate 1, row index 1. -/
theorem C6_witness :
    (1 : ℕ) ≤ 1 ∧
    1 < ((((sampleMortgage 3).generateFlows 1
      (.valid .REPAYMENT)).2)._totalFlows.getD []).length ∧
    (((((sampleMortgage 3).generateFlows 1
        (.valid .REPAYMENT)).2)._totalFlows.getD []).getD 1 0 =
      ((((sampleMortgage 3).generateFlows 1
        (.valid .REPAYMENT)).2)._interestFlows.getD []).getD 1 0 +
      ((((sampleMortgage 3).generateFlows 1
        (.valid .REPAYMENT)).2)._principalFlows.getD []).getD 1 0 ∧
    ((((sampleMortgage 3).generateFlows 1
        (.valid .REPAYMENT)).2)._principalRemaining.getD []).getD 1 0 =
      ((((sampleMortgage 3).generateFlows 1
        (.valid .REPAYMENT)).2)._principalRemaining.getD []).getD
        (1 - 1) 0 -
      ((((sampleMortgage 3).generateFlows 1
        (.valid .REPAYMENT)).2)._principalFlows.getD []).getD 1 0) :=
  ⟨le_refl 1,
   by norm_num [FinBondMortgage.generateFlows, FinBondMortgage.flowsObject,
     FinBondMortgage.seeded, FinBondMortgage.repaymentAmount,
     FinBondMortgage.numFlows, sampleMortgage, FinFrequency, runFlows,
     flowStep, seedFlows],
   C6_repayment_row_identities (sampleMortgage 3) 1 1 (le_refl 1)
     (by norm_num [FinBondMortgage.generateFlows,
       FinBondMortgage.flowsObject, FinBondMortgage.seeded,
       FinBondMortgage.repaymentAmount, FinBondMortgage.numFlows,
       sampleMortgage, FinFrequency, runFlows, flowStep, seedFlows])⟩

/-- Witness for C8 at the concrete four-date mortgage, interest-only,
rate 1/20. -/
theorem C8_witness :
    1 ≤ (sampleMortgage 4).numFlows ∧
    ((sampleMortgage 4).generateFlows (1/20)
      (.valid .INTEREST_ONLY)).1 = none ∧
    (((((sampleMortgage 4).generateFlows (1/20)
        (.valid .INTEREST_ONLY)).2)._interestFlows.getD []).length =
      (sampleMortgage 4).numFlows ∧
    ((((sampleMortgage 4).generateFlows (1/20)
        (.valid .INTEREST_ONLY)).2)._principalFlows.getD []).length =
      (sampleMortgage 4).numFlows ∧
    ((((sampleMortgage 4).generateFlows (1/20)
        (.valid .INTEREST_ONLY)).2)._principalRemaining.getD []).length =
      (sampleMortgage 4).numFlows ∧
    ((((sampleMortgage 4).generateFlows (1/20)
        (.valid .INTEREST_ONLY)).2)._totalFlows.getD []).length =
      (sampleMortgage 4).numFlows ∧
    ((((sampleMortgage 4).generateFlows (1/20)
        (.valid .INTEREST_ONLY)).2)._interestFlows.getD []).getD 0 0 = 0 ∧
    ((((sampleMortgage 4).generateFlows (1/20)
        (.valid .INTEREST_ONLY)).2)._principalFlows.getD []).getD 0 0 = 0 ∧
    ((((sampleMortgage 4).generateFlows (1/20)
        (.valid .INTEREST_ONLY)).2)._totalFlows.getD []).getD 0 0 = 0 ∧
    ((((sampleMortgage 4).generateFlows (1/20)
        (.valid .INTEREST_ONLY)).2)._principalRemaining.getD []).getD 0 0 =
      (sampleMortgage 4)._principal) :=
  ⟨by decide, rfl,
   C8_flow_vector_shape (sampleMortgage 4) (1/20) (.valid .INTEREST_ONLY)
     (by decide) rfl⟩
